import Mathlib

/-!
# Verification of the IAM Dashboard core (src/app.py)

A shallow embedding of the data model and the derivation logic of the
IAM policy dashboard: record loading (`load_iteration_data`), the
iteration-explorer summary capsule and CST section, the contract
provenance classifier, the repair impact aggregator, and the canonical
CST summary section. Python floats are modelled as rationals (ℚ);
Python dictionaries as association lists in insertion order; files read
in sorted name order as an already-ordered input list; a Python
`KeyError` / `ValueError` escaping a code path as an `Except.error`.
Rendered page elements are modelled by the inductive `Output` type, in
emission order.
-/

namespace IAMDash

/-- One rendered page element of the dashboard, in emission order.
`metric` models `st.metric`/f-string numeric display (the raw value,
display formatting to 3 decimals aside), `warning` models `st.warning`,
`info` models `st.info`, `chart` models `st.line_chart` of paired
series, `jsonView` models `st.json`, `header` a subheader, `text` plain
text. -/
inductive Output where
  | header (title : String)
  | text (s : String)
  | metric (label : String) (value : ℚ)
  | warning (msg : String)
  | info (msg : String)
  | chart (series : List (ℚ × ℚ))
  | jsonView (tag : String)
  deriving DecidableEq

/-- `cst_results` of an iteration record, when present: the two
violation rates and the given (not re-derived) reduction, all read at
`cst["before"]["violation_rate"]`, `cst["after"]["violation_rate"]`,
`cst["violation_reduction"]`. -/
structure CstResults where
  before_violation_rate : ℚ
  after_violation_rate : ℚ
  violation_reduction : ℚ
  deriving DecidableEq

/-- `mutation_meta` of an iteration record: `desc` and `source`. -/
structure MutationMeta where
  desc : String
  source : String
  deriving DecidableEq

/-- One iteration record as the loader and the explorer page consume it.
Fields the Python code reaches through are `Option`s when the code can
face their absence: `iteration` is read with `data["iteration"]` at load
time, `mutation_meta` and `proof.strict_mode` with mandatory indexing at
render time, `cst_results` with `data.get("cst_results", {})`.
`proof.strict_mode` is a mapping contract-name → outcome string. -/
structure IterationRecord where
  iteration : Option ℤ
  mutation_meta : Option MutationMeta
  proof_strict_mode : Option (List (String × String))
  cst_results : Option CstResults
  deriving DecidableEq

/-- Metadata for one contract in `contract_metadata`; the code reads
`origin` with `.get("origin", "unknown")`, so it is optional here. -/
structure ContractMeta where
  origin : Option String
  iteration : Option ℤ
  deriving DecidableEq

/-- One 4-tuple of `repair_improvements` / `repair_failures`:
(iterationId, beforeScore, afterScore, cstDelta). -/
structure RepairTuple where
  iter : ℤ
  before : ℚ
  after : ℚ
  cst_delta : ℚ
  deriving DecidableEq

/-- `cst_summary` of the dashboard record, when present. `avg_before`
is an `Option` because the code guards on
`cs.get("avg_before") is not None`; the remaining fields are read with
mandatory indexing on the path that uses them. -/
structure CstSummary where
  avg_before : Option ℚ
  avg_after : ℚ
  avg_delta : ℚ
  before_rates : List ℚ
  after_rates : List ℚ
  deriving DecidableEq

/-- The single dashboard record (`final_dashboard.json`). -/
structure DashboardRecord where
  evolved_contracts : List String
  candidate_contracts : List String
  contract_metadata : List (String × ContractMeta)
  repair_improvements : List RepairTuple
  repair_failures : List RepairTuple
  cst_summary : Option CstSummary
  lean_unprovable : ℤ
  dafny_violations : ℤ
  deriving DecidableEq

/-! ## Record Store: `load_iteration_data` -/

/-- Python dict assignment `results[k] = v` on an association list kept
in insertion order: replace the value in place if the key is present,
otherwise append. -/
def store_insert (m : List (ℤ × IterationRecord)) (k : ℤ)
    (v : IterationRecord) : List (ℤ × IterationRecord) :=
  if m.any (fun p => p.1 = k) then
    m.map (fun p => if p.1 = k then (k, v) else p)
  else
    m ++ [(k, v)]

/-- Loop body of `load_iteration_data`: thread the accumulated
`results` dict through the remaining files, stopping with an error at
the first record without an `iteration` field (Python `KeyError`). -/
def load_loop (acc : List (ℤ × IterationRecord)) :
    List IterationRecord → Except String (List (ℤ × IterationRecord))
  | [] => Except.ok acc
  | r :: rest =>
      match r.iteration with
      | some i => load_loop (store_insert acc i r) rest
      | none => Except.error "KeyError: iteration"

/-- `load_iteration_data` (app.py lines 16-23): iterate over the
iteration files in sorted file-name order (the input list) and do
`results[data["iteration"]] = data` for each, starting from the empty
dict. No validation beyond the presence of the `iteration` key is
performed at load time. -/
def load_iteration_data (files : List IterationRecord) :
    Except String (List (ℤ × IterationRecord)) :=
  load_loop [] files

/-! ## Iteration Explorer -/

/-- Python `v.startswith("FAIL")`: the characters of `"FAIL"` are a
prefix of the characters of `s`. -/
def starts_with_fail (s : String) : Bool :=
  "FAIL".data.isPrefixOf s.data

/-- Strict-mode failure count (app.py line 88):
`sum(1 for v in data["proof"]["strict_mode"].values() if v.startswith("FAIL"))`. -/
def failure_count (m : List (String × String)) : Nat :=
  m.foldl (fun acc p => if starts_with_fail p.2 then acc + 1 else acc) 0

/-- `cst.get("before", {}).get("violation_rate", 0)` with
`cst = data.get("cst_results", {})` (app.py lines 74-76). -/
def before_rate (r : IterationRecord) : ℚ :=
  match r.cst_results with
  | some c => c.before_violation_rate
  | none => 0

/-- `cst.get("after", {}).get("violation_rate", 0)` (app.py line 77). -/
def after_rate (r : IterationRecord) : ℚ :=
  match r.cst_results with
  | some c => c.after_violation_rate
  | none => 0

/-- `cst.get("violation_reduction", 0)` (app.py line 78). -/
def reduction_of (r : IterationRecord) : ℚ :=
  match r.cst_results with
  | some c => c.violation_reduction
  | none => 0

/-- The Iteration Explorer summary capsule (app.py lines 81-94): the
f-string indexes `data["mutation_meta"]` and
`data["proof"]["strict_mode"]` unconditionally (absence raises
`KeyError`, modelled as `none`) and always interpolates the three
violation-rate values, defaulted as in `before_rate` etc. -/
def iteration_capsule (r : IterationRecord) : Option (List Output) :=
  match r.mutation_meta, r.proof_strict_mode with
  | some mm, some m =>
      some [Output.text mm.desc,
            Output.text mm.source,
            Output.metric "Contracts" (m.length : ℚ),
            Output.metric "Failures" (failure_count m : ℚ),
            Output.metric "Violation Rate (Before)" (before_rate r),
            Output.metric "Violation Rate (After)" (after_rate r),
            Output.metric "Reduction" (reduction_of r)]
  | _, _ => none

/-- The Request-Level CST Results section (app.py lines 141-147):
`if cst: st.json(cst) else: st.info(...)`, where `cst` is
`data.get("cst_results", {})` and an absent field gives the falsy `{}`. -/
def cst_results_section (r : IterationRecord) : List Output :=
  match r.cst_results with
  | some _ => [Output.jsonView "cst_results"]
  | none => [Output.info "No CST results found for this iteration."]

/-! ## Contract Provenance Classifier (Results Dashboard, app.py 195-235) -/

/-- Python `dict.get(key)` on `contract_metadata` held as an
insertion-ordered association list (keys unique). -/
def dict_get (m : List (String × ContractMeta)) (c : String) :
    Option ContractMeta :=
  match m with
  | [] => none
  | p :: rest => if p.1 = c then some p.2 else dict_get rest c

/-- `meta.get(cname, {}).get("origin", "unknown")` (app.py line 203). -/
def origin_of (d : DashboardRecord) (c : String) : String :=
  match dict_get d.contract_metadata c with
  | some m => m.origin.getD "unknown"
  | none => "unknown"

/-- The readable origin symbol (app.py lines 207-212). -/
def origin_symbol (d : DashboardRecord) (c : String) : String :=
  if origin_of d c = "gpt" then "🧠 GPT"
  else if origin_of d c = "seed" then "⚙️ Seed"
  else "🔵 Evolved"

/-- The promotion status (app.py lines 215-220): membership in
`evolved_contracts` is checked first, then seed origin, else candidate. -/
def promotion_status (d : DashboardRecord) (c : String) : String :=
  if c ∈ d.evolved_contracts then "✅ Promoted"
  else if origin_of d c = "seed" then "⚙️ Stable"
  else "⏳ Candidate"

/-- One row of the provenance table (app.py lines 222-226). -/
structure ProvenanceRow where
  contract : String
  origin : String
  status : String
  deriving DecidableEq

/-- `sorted(set(list(evolved) + list(candidates) + list(meta.keys())))`
(app.py lines 201-202): the union of the three contract-name sources as
a set, traversed in ascending (lexicographic) order. -/
def all_contracts (d : DashboardRecord) : List String :=
  (d.evolved_contracts.toFinset ∪ d.candidate_contracts.toFinset ∪
    (d.contract_metadata.map Prod.fst).toFinset).sort (· ≤ ·)

/-- The provenance table rows (app.py lines 200-226), one per contract
in `all_contracts`, in that order. -/
def provenance_rows (d : DashboardRecord) : List ProvenanceRow :=
  (all_contracts d).map
    (fun c => ⟨c, origin_symbol d c, promotion_status d c⟩)

/-! ## Rounding and means -/

/-- Round a rational to the nearest integer, ties to the even integer:
the semantics of Python 3 `round` on an exactly represented value. -/
def roundHalfEven (q : ℚ) : ℤ :=
  if q - ⌊q⌋ < 1/2 then ⌊q⌋
  else if 1/2 < q - ⌊q⌋ then ⌊q⌋ + 1
  else if 2 ∣ ⌊q⌋ then ⌊q⌋ else ⌊q⌋ + 1

/-- Python `round(x, 3)`: round to the nearest multiple of `1/1000`,
ties to even. -/
def round3 (q : ℚ) : ℚ := (roundHalfEven (q * 1000) : ℚ) / 1000

/-- `pandas.Series.mean`: sum divided by length. Only ever applied to a
nonempty list by the code (the repair block is guarded). -/
def list_mean (l : List ℚ) : ℚ := l.sum / (l.length : ℚ)

/-! ## Repair Impact Summary (app.py 249-278) -/

/-- The three repair summary statistics (app.py lines 256-272). Active
only under the guard
`if final_dashboard.get("repair_improvements") or final_dashboard.get("repair_failures")`
(at least one list nonempty / truthy); `repair_data` is
`improvements + failures`, `Δ Proof Score` is `After - Before` per row,
and each displayed statistic is the column mean rounded to 3 places. -/
def repair_stats (impr fail : List RepairTuple) : Option (ℚ × ℚ × ℚ) :=
  if impr ≠ [] ∨ fail ≠ [] then
    let all := impr ++ fail
    some (round3 (list_mean (all.map RepairTuple.before)),
          round3 (list_mean (all.map RepairTuple.after)),
          round3 (list_mean (all.map (fun t => t.after - t.before))))
  else
    none

/-- `repair_stats` rewritten in the words of the specification: one
working sequence formed by concatenation, `deltaProofScore = after − before`
per tuple, the three means over the whole concatenated sequence rounded
to 3 decimal places, and an absent result exactly when the concatenated
sequence is empty. Used as the refinement partner of `repair_stats`. -/
def spec_repair_stats (impr fail : List RepairTuple) :
    Option (ℚ × ℚ × ℚ) :=
  let work := impr ++ fail
  if work = [] then none
  else
    some (round3 ((work.map RepairTuple.before).sum / (work.length : ℚ)),
          round3 ((work.map RepairTuple.after).sum / (work.length : ℚ)),
          round3 ((work.map (fun t => t.after - t.before)).sum /
                    (work.length : ℚ)))

/-- The Repair Impact Summary section (app.py lines 249-278): the
subheader always renders; the metrics and the before/after chart render
only when at least one repair list is nonempty. There is no `else`
branch: an empty concatenation produces no further output. -/
def repair_section (d : DashboardRecord) : List Output :=
  Output.header "🔧 Repair Impact Summary" ::
    (match repair_stats d.repair_improvements d.repair_failures with
     | some (b, a, dl) =>
        [Output.metric "Avg Proof Score (Before)" b,
         Output.metric "Avg Proof Score (After)" a,
         Output.metric "Avg Δ Proof Score" dl,
         Output.chart ((d.repair_improvements ++ d.repair_failures).map
            (fun t => (t.before, t.after)))]
     | none => [])

/-- `true` on the explicit "no data" page elements (`st.info` /
`st.warning`), `false` on every other element. -/
def is_sentinel : Output → Bool
  | Output.info _ => true
  | Output.warning _ => true
  | _ => false

/-! ## Request-Level CST Summary, canonical (app.py 284-300) -/

/-- The canonical CST summary section (app.py lines 288-300). The guard
is `if cs and cs.get("avg_before") is not None`; on its failure the
section is the `st.warning` sentinel. On success the three metrics are
emitted first; the time-series chart is built by
`pd.DataFrame({...: cs["before_rates"], ...: cs["after_rates"]})`,
whose constructor raises `ValueError` when the two lists have different
lengths — modelled by the `Option String` error component, with the
metrics already emitted. -/
def cst_summary_section (d : DashboardRecord) :
    List Output × Option String :=
  match d.cst_summary with
  | none =>
      ([Output.warning
          "No CST summary available. Regenerate precomputed results."],
       none)
  | some cs =>
      match cs.avg_before with
      | none =>
          ([Output.warning
              "No CST summary available. Regenerate precomputed results."],
           none)
      | some ab =>
          let metrics :=
            [Output.metric "Avg Violation Rate (Baseline)" (round3 ab),
             Output.metric "Avg Violation Rate (After PCR)"
               (round3 cs.avg_after),
             Output.metric "Avg Δ (Reduction)" (round3 cs.avg_delta)]
          if cs.before_rates.length = cs.after_rates.length then
            (metrics ++ [Output.chart (cs.before_rates.zip cs.after_rates)],
             none)
          else
            (metrics,
             some "ValueError: All arrays must be of the same length")

/-! ## Concrete records used by witnesses and counterexamples -/

/-- An iteration record whose optional `cst_results` is absent but that
is otherwise complete. -/
def exRecNoCst : IterationRecord :=
  ⟨some 3, some ⟨"wildcard mutation", "llm"⟩,
   some [("A", "PASS"), ("B", "FAIL")], none⟩

/-- First of two records carrying the same iteration id 0. -/
def exRecA : IterationRecord :=
  ⟨some 0, some ⟨"m1", "llm"⟩, some [("A", "PASS")], none⟩

/-- Second record with iteration id 0, differing from `exRecA`. -/
def exRecB : IterationRecord :=
  ⟨some 0, some ⟨"m2", "llm"⟩, some [("A", "FAIL")], none⟩

/-- A record missing the required `proof.strict_mode` field. -/
def exRecNoStrict : IterationRecord :=
  ⟨some 5, some ⟨"m3", "llm"⟩, none, none⟩

/-- A well-formed record with iteration id 6. -/
def exRecGood : IterationRecord :=
  ⟨some 6, some ⟨"m4", "llm"⟩, some [("A", "PASS")], none⟩

/-- A dashboard whose `seed_contract` has seed origin and is also in
`evolved_contracts`, with one repair improvement tuple and a complete
CST summary. -/
def exDashboard : DashboardRecord :=
  { evolved_contracts := ["seed_contract"]
    candidate_contracts := ["gpt_contract"]
    contract_metadata :=
      [("seed_contract", ⟨some "seed", some 0⟩),
       ("gpt_contract", ⟨some "gpt", some 2⟩)]
    repair_improvements := [⟨1, 1/2, 9/10, 2/5⟩]
    repair_failures := []
    cst_summary := some ⟨some (1/2), 1/4, 1/4, [1/2, 3/10], [1/4, 1/5]⟩
    lean_unprovable := 0
    dafny_violations := 0 }

/-- A dashboard with no repair data and no CST summary. -/
def exEmptyDash : DashboardRecord := ⟨[], [], [], [], [], none, 0, 0⟩

/-- A dashboard whose `cst_summary` is present but has `avg_before`
null, every other field populated. -/
def exDashNoAvg : DashboardRecord :=
  ⟨[], [], [], [], [], some ⟨none, 1/4, 1/8, [1/2], [1/4]⟩, 0, 0⟩

/-- A dashboard whose CST rate series have different lengths. -/
def exDashUneven : DashboardRecord :=
  ⟨[], [], [], [], [], some ⟨some (1/2), 1/4, 1/4, [1/2, 3/10], [1/4]⟩,
   0, 0⟩

/-! ## Helper lemmas -/

/-- Counting by a conditional fold equals the length of the filtered
list, for any starting accumulator. -/
theorem foldl_count_eq_filter_length (p : String × String → Bool)
    (m : List (String × String)) :
    ∀ n : Nat,
      m.foldl (fun acc q => if p q then acc + 1 else acc) n =
        n + (m.filter p).length := by
  induction m with
  | nil => intro n; simp
  | cons a m ih =>
      intro n
      rw [List.foldl_cons, List.filter_cons]
      by_cases h : p a
      · simp only [h, if_true, List.length_cons, ih]
        omega
      · simp [h, ih]

/-! ## Claim theorems -/

/-- Claim C1: for every contract in the union of the three sources, the
promotion status is the Promoted label exactly when the contract is in
`evolved_contracts` (checked first, overriding origin); otherwise the
status is the Stable label exactly when the derived metadata origin is
`"seed"`, and the Candidate label in every remaining case. -/
theorem promotion_status_spec (d : DashboardRecord) (c : String)
    (_hc : c ∈ all_contracts d) :
    (promotion_status d c = "✅ Promoted" ↔ c ∈ d.evolved_contracts) ∧
    (c ∉ d.evolved_contracts →
      ((promotion_status d c = "⚙️ Stable" ↔ origin_of d c = "seed") ∧
        (origin_of d c ≠ "seed" → promotion_status d c = "⏳ Candidate"))) := by
  unfold promotion_status
  by_cases h : c ∈ d.evolved_contracts
  · simp [h]
  · by_cases ho : origin_of d c = "seed" <;> simp [h, ho]

/-- Witness for C1 at `exDashboard`: `seed_contract` is in the union,
has seed origin, is also in `evolved_contracts`, and is reported
Promoted rather than Stable. -/
theorem promotion_status_spec_witness :
    "seed_contract" ∈ all_contracts exDashboard ∧
    origin_of exDashboard "seed_contract" = "seed" ∧
    promotion_status exDashboard "seed_contract" = "✅ Promoted" := by
  have hc : "seed_contract" ∈ all_contracts exDashboard := by
    simp [all_contracts, exDashboard, Finset.mem_sort]
  exact ⟨hc, by decide,
    (promotion_status_spec exDashboard "seed_contract" hc).1.mpr
      (by decide)⟩

/-- Claim C2: the repair impact aggregator agrees everywhere with the
specification-worded aggregator (concatenate improvements then
failures, per-tuple delta `after − before`, the three means over the
whole concatenated sequence, each rounded to 3 decimal places), and on
the single tuple `(1, 0.5, 0.9, 0.4)` it yields mean(before) `0.5`,
mean(after) `0.9`, mean(delta) `0.4`. -/
theorem repair_stats_spec :
    (∀ impr fl : List RepairTuple,
      repair_stats impr fl = spec_repair_stats impr fl) ∧
    repair_stats [⟨1, 1/2, 9/10, 2/5⟩] [] = some (1/2, 9/10, 2/5) := by
  constructor
  · intro impr fl
    unfold repair_stats spec_repair_stats list_mean
    by_cases h : impr ++ fl = []
    · rw [List.append_eq_nil] at h
      simp [h.1, h.2]
    · have h' : impr ≠ [] ∨ fl ≠ [] := by
        by_contra hcon
        push_neg at hcon
        exact h (by rw [hcon.1, hcon.2]; rfl)
      simp [h, h']
  · norm_num [repair_stats, list_mean, round3, roundHalfEven]

/-- Claim C3: the strict-mode failure count equals the number of
entries whose outcome begins with the prefix `"FAIL"` (prefix match,
not exact equality), and on
`{"A": "PASS", "B": "FAIL: wildcard", "C": "FAIL"}` it is 2. -/
theorem failure_count_spec :
    failure_count [("A", "PASS"), ("B", "FAIL: wildcard"), ("C", "FAIL")]
        = 2 ∧
    ∀ m : List (String × String),
      failure_count m =
        (m.filter (fun p => starts_with_fail p.2)).length := by
  refine ⟨by decide, fun m => ?_⟩
  unfold failure_count
  simpa using
    foldl_count_eq_filter_length (fun p => starts_with_fail p.2) m 0

/-- Claim C9: the provenance classifier's row sequence is strictly
sorted by contract name (ascending), and repeated invocation on the
same `DashboardRecord` yields the identical sequence (the classifier is
a pure function of the record). -/
theorem provenance_sorted_idempotent (d : DashboardRecord) :
    List.Sorted (· < ·)
        ((provenance_rows d).map ProvenanceRow.contract) ∧
    provenance_rows d = provenance_rows d := by
  refine ⟨?_, rfl⟩
  have heq : (provenance_rows d).map ProvenanceRow.contract
      = all_contracts d := by
    simp [provenance_rows, Function.comp_def]
  rw [heq]
  exact Finset.sort_sorted_lt _

/-- Claim C4 counterexample: for the concrete record `exRecNoCst`,
whose `cst_results` is absent, the Iteration Explorer summary capsule
still displays all three violation-rate values defaulted to 0, so the
claim that none of them is defaulted to 0 anywhere in the explorer
output is false on the code. -/
theorem cst_absent_zero_default_cex :
    exRecNoCst.cst_results = none ∧
    iteration_capsule exRecNoCst =
      some [Output.text "wildcard mutation", Output.text "llm",
            Output.metric "Contracts" 2, Output.metric "Failures" 1,
            Output.metric "Violation Rate (Before)" 0,
            Output.metric "Violation Rate (After)" 0,
            Output.metric "Reduction" 0] := by
  constructor
  · rfl
  · norm_num [iteration_capsule, exRecNoCst, failure_count,
      starts_with_fail, before_rate, after_rate, reduction_of]
    decide

/-- Claim C4 as amended: when an iteration's `cst_results` is absent,
the CST results section does report the explicit "no CST results" state
— but the summary capsule defaults `before.violationRate`,
`after.violationRate` and `violationReduction` to 0 and displays the
zeros. -/
theorem cst_absent_explorer_amended (r : IterationRecord)
    (h : r.cst_results = none) :
    cst_results_section r =
        [Output.info "No CST results found for this iteration."] ∧
    before_rate r = 0 ∧ after_rate r = 0 ∧ reduction_of r = 0 ∧
    (∀ mm m, r.mutation_meta = some mm → r.proof_strict_mode = some m →
      Output.metric "Violation Rate (Before)" 0 ∈
        (iteration_capsule r).getD []) := by
  refine ⟨?_, ?_, ?_, ?_, ?_⟩
  · simp [cst_results_section, h]
  · simp [before_rate, h]
  · simp [after_rate, h]
  · simp [reduction_of, h]
  · intro mm m hmm hm
    simp [iteration_capsule, hmm, hm, before_rate, h]

/-- Witness for the amended C4 at `exRecNoCst`. -/
theorem cst_absent_explorer_amended_witness :
    cst_results_section exRecNoCst =
        [Output.info "No CST results found for this iteration."] ∧
    Output.metric "Violation Rate (Before)" 0 ∈
        (iteration_capsule exRecNoCst).getD [] := by
  have h := cst_absent_explorer_amended exRecNoCst rfl
  exact ⟨h.1, h.2.2.2.2 ⟨"wildcard mutation", "llm"⟩
    [("A", "PASS"), ("B", "FAIL")] rfl rfl⟩

/-- Claim C5 counterexample: loading the two concrete records `exRecA`
and `exRecB`, which share iteration id 0 and differ, succeeds instead
of failing — the later record silently replaces the earlier, so the
Record Store does not reject id collisions. -/
theorem duplicate_id_load_cex :
    load_iteration_data [exRecA, exRecB] = Except.ok [(0, exRecB)] ∧
    exRecA.iteration = some 0 ∧ exRecB.iteration = some 0 ∧
    exRecA ≠ exRecB := by
  refine ⟨rfl, rfl, rfl, by decide⟩

/-- Claim C5 as amended: on an id collision the load succeeds, and the
record loaded later (in sorted file-name order) silently replaces the
earlier one under that id. -/
theorem duplicate_id_load_amended (r₁ r₂ : IterationRecord) (i : ℤ)
    (h₁ : r₁.iteration = some i) (h₂ : r₂.iteration = some i) :
    load_iteration_data [r₁, r₂] = Except.ok [(i, r₂)] := by
  simp [load_iteration_data, load_loop, store_insert, h₁, h₂]

/-- Witness for the amended C5 at `exRecA`, `exRecB`. -/
theorem duplicate_id_load_amended_witness :
    load_iteration_data [exRecA, exRecB] = Except.ok [(0, exRecB)] :=
  duplicate_id_load_amended exRecA exRecB 0 rfl rfl

/-- Claim C6 counterexample: the concrete record `exRecNoStrict` is
missing the required `proof.strict_mode` field, yet loading it together
with `exRecGood` succeeds with both records present — no
`MalformedRecordError` (or any load-time failure) occurs for the
malformed record. -/
theorem malformed_record_load_cex :
    exRecNoStrict.proof_strict_mode = none ∧
    load_iteration_data [exRecNoStrict, exRecGood] =
      Except.ok [(5, exRecNoStrict), (6, exRecGood)] := by
  refine ⟨rfl, rfl⟩

/-- Claim C6 as amended: a record missing `proof.strict_mode` loads
successfully (the loader validates nothing beyond the `iteration` key);
the missing field only makes the Iteration Explorer summary capsule for
that record undefined (a render-time `KeyError`), while other records
load and render normally. -/
theorem malformed_record_load_amended
    (rbad rgood : IterationRecord) (i j : ℤ)
    (hi : rbad.iteration = some i) (hj : rgood.iteration = some j)
    (hij : i ≠ j) (hbad : rbad.proof_strict_mode = none)
    (mm : MutationMeta) (m : List (String × String))
    (hgm : rgood.mutation_meta = some mm)
    (hgs : rgood.proof_strict_mode = some m) :
    load_iteration_data [rbad, rgood] =
        Except.ok [(i, rbad), (j, rgood)] ∧
    iteration_capsule rbad = none ∧
    (iteration_capsule rgood).isSome = true := by
  refine ⟨?_, ?_, ?_⟩
  · simp [load_iteration_data, load_loop, store_insert, hi, hj, hij]
  · cases hmb : rbad.mutation_meta <;> simp [iteration_capsule, hbad, hmb]
  · simp [iteration_capsule, hgm, hgs]

/-- Witness for the amended C6 at `exRecNoStrict`, `exRecGood`. -/
theorem malformed_record_load_amended_witness :
    load_iteration_data [exRecNoStrict, exRecGood] =
        Except.ok [(5, exRecNoStrict), (6, exRecGood)] ∧
    iteration_capsule exRecNoStrict = none ∧
    (iteration_capsule exRecGood).isSome = true :=
  malformed_record_load_amended exRecNoStrict exRecGood 5 6 rfl rfl
    (by decide) rfl ⟨"m4", "llm"⟩ [("A", "PASS")] rfl rfl

/-- Claim C7 counterexample: on the concrete dashboard `exEmptyDash`,
whose two repair lists are both empty, the Repair Impact section output
is only the subheader — it contains no explicit "no repair data"
informational or warning element at all. -/
theorem empty_repair_sentinel_cex :
    exEmptyDash.repair_improvements = [] ∧
    exEmptyDash.repair_failures = [] ∧
    repair_section exEmptyDash =
      [Output.header "🔧 Repair Impact Summary"] ∧
    (repair_section exEmptyDash).any is_sentinel = false := by
  refine ⟨rfl, rfl, ?_, ?_⟩ <;> decide

/-- Claim C7 as amended: when the concatenation of the two repair lists
is empty the aggregator computes no statistics (so no mean over zero
elements and no error), but it is silently skipped — only the subheader
renders, with no explicit "no repair data" sentinel. -/
theorem empty_repair_amended (d : DashboardRecord)
    (h₁ : d.repair_improvements = []) (h₂ : d.repair_failures = []) :
    repair_stats d.repair_improvements d.repair_failures = none ∧
    repair_section d = [Output.header "🔧 Repair Impact Summary"] := by
  constructor
  · simp [repair_stats, h₁, h₂]
  · simp [repair_section, repair_stats, h₁, h₂]

/-- Witness for the amended C7 at `exEmptyDash`. -/
theorem empty_repair_amended_witness :
    repair_stats exEmptyDash.repair_improvements
        exEmptyDash.repair_failures = none ∧
    repair_section exEmptyDash =
      [Output.header "🔧 Repair Impact Summary"] :=
  empty_repair_amended exEmptyDash rfl rfl

/-- Claim C8: the canonical CST summary section shows the "no summary
available" warning exactly when `cst_summary` is absent or its
`avg_before` is null, regardless of other fields; otherwise it exposes
`avg_before`, `avg_after` and `avg_delta` rounded to 3 decimals plus
the zipped rate series (the chart, under the data-model invariant that
the two series have equal length). The section is a function of the
dashboard record alone, so no summary is ever synthesized from
per-iteration records. -/
theorem cst_summary_sentinel_spec (d : DashboardRecord) :
    ((Output.warning
        "No CST summary available. Regenerate precomputed results.")
          ∈ (cst_summary_section d).1 ↔
      (d.cst_summary = none ∨
        ∃ cs, d.cst_summary = some cs ∧ cs.avg_before = none)) ∧
    (∀ cs ab, d.cst_summary = some cs → cs.avg_before = some ab →
      Output.metric "Avg Violation Rate (Baseline)" (round3 ab)
          ∈ (cst_summary_section d).1 ∧
      Output.metric "Avg Violation Rate (After PCR)"
          (round3 cs.avg_after) ∈ (cst_summary_section d).1 ∧
      Output.metric "Avg Δ (Reduction)" (round3 cs.avg_delta)
          ∈ (cst_summary_section d).1 ∧
      (cs.before_rates.length = cs.after_rates.length →
        Output.chart (cs.before_rates.zip cs.after_rates)
          ∈ (cst_summary_section d).1)) := by
  constructor
  · cases hd : d.cst_summary with
    | none => simp [cst_summary_section, hd]
    | some cs =>
        cases hab : cs.avg_before with
        | none => simp [cst_summary_section, hd, hab]
        | some ab =>
            simp only [cst_summary_section, hd, hab]
            by_cases hl :
                cs.before_rates.length = cs.after_rates.length <;>
              simp [hl, hab]
  · intro cs ab hcs hab
    simp only [cst_summary_section, hcs, hab]
    by_cases hl : cs.before_rates.length = cs.after_rates.length <;>
      simp [hl]

/-- Witness for C8: the warning at `exDashNoAvg` (null `avg_before`,
all other fields populated) and the baseline metric at `exDashboard`. -/
theorem cst_summary_sentinel_spec_witness :
    (Output.warning
        "No CST summary available. Regenerate precomputed results.")
      ∈ (cst_summary_section exDashNoAvg).1 ∧
    Output.metric "Avg Violation Rate (Baseline)" (round3 (1/2))
      ∈ (cst_summary_section exDashboard).1 := by
  constructor
  · exact (cst_summary_sentinel_spec exDashNoAvg).1.mpr
      (Or.inr ⟨_, rfl, rfl⟩)
  · exact ((cst_summary_sentinel_spec exDashboard).2 _ _ rfl rfl).1

/-- Claim C10: when `cst_summary` is present with non-null
`avg_before`, the time-series chart construction fails (the
`pd.DataFrame` constructor raises) exactly when the two rate series
differ in length; when they agree, the chart pairs the series strictly
by index, with no truncation or padding. -/
theorem cst_series_alignment_spec (d : DashboardRecord)
    (cs : CstSummary) (ab : ℚ) (hcs : d.cst_summary = some cs)
    (hab : cs.avg_before = some ab) :
    ((cst_summary_section d).2 ≠ none ↔
      cs.before_rates.length ≠ cs.after_rates.length) ∧
    (cs.before_rates.length = cs.after_rates.length →
      Output.chart (cs.before_rates.zip cs.after_rates)
          ∈ (cst_summary_section d).1 ∧
      (cs.before_rates.zip cs.after_rates).length
          = cs.before_rates.length ∧
      (cs.before_rates.zip cs.after_rates).length
          = cs.after_rates.length ∧
      ∀ (i : Nat) (hz : i < (cs.before_rates.zip cs.after_rates).length),
        (cs.before_rates.zip cs.after_rates).get ⟨i, hz⟩ =
          (cs.before_rates.get ⟨i, List.lt_length_left_of_zip hz⟩,
           cs.after_rates.get ⟨i, List.lt_length_right_of_zip hz⟩)) := by
  constructor
  · simp only [cst_summary_section, hcs, hab]
    by_cases hl : cs.before_rates.length = cs.after_rates.length <;>
      simp [hl]
  · intro hl
    refine ⟨?_, ?_, ?_, ?_⟩
    · simp [cst_summary_section, hcs, hab, hl]
    · rw [List.length_zip, hl, Nat.min_self]
    · rw [List.length_zip, hl, Nat.min_self]
    · intro i hz
      simp

/-- Witness for C10: at `exDashUneven` (series lengths 2 and 1) the
section carries an error, and at `exDashboard` (equal lengths) the
chart is the index-wise zip. -/
theorem cst_series_alignment_spec_witness :
    (cst_summary_section exDashUneven).2 ≠ none ∧
    Output.chart [((1:ℚ)/2, (1:ℚ)/4), ((3:ℚ)/10, (1:ℚ)/5)]
      ∈ (cst_summary_section exDashboard).1 := by
  constructor
  · exact (cst_series_alignment_spec exDashUneven _ _ rfl rfl).1.mpr
      (by decide)
  · exact ((cst_series_alignment_spec exDashboard _ _ rfl rfl).2
      rfl).1

end IAMDash
